import Mathlib

/-!
Verification development for the Journal-AI voice-journaling client.

Part 1 embeds the recording session of
`src/components/journal/VoiceRecorder.tsx` as an explicit state machine.
React semantics are modelled faithfully: `useState` values read inside a
closure are the values captured at the render in which the closure was
created, while `useRef` cells (`chunksRef`, `streamRef`,
`mediaRecorderRef`, `intervalRef`) are mutable and always current.  In
particular the `mediaRecorder.onstop` handler installed by
`startRecording` captures the `isRecording` value of the render that
created `startRecording` (the field `capturedIsRecording` below), not
the live state.
-/

namespace VoiceRecorder

/-- State of the `MediaRecorder` object referenced by `mediaRecorderRef`:
no recorder created yet, `recording`, or `inactive` (after `.stop()`). -/
inductive MRState
  | noRec
  | recording
  | inactive
deriving DecidableEq

/-- The observable state of one `VoiceRecorder` component instance.
`chunks` records the sizes of the blobs buffered in `chunksRef`;
`emitted` records every artifact delivered through
`onRecordingComplete` (as its list of chunk sizes); `releaseCount`
counts how many times the media-stream tracks were stopped
(`streamRef.current.getTracks().forEach(track => track.stop())`). -/
structure RecorderState where
  isRecording : Bool
  recordingTime : Nat
  streamHeld : Bool
  intervalSet : Bool
  recState : MRState
  chunks : List Nat
  capturedIsRecording : Bool
  pendingOnstop : Bool
  releaseCount : Nat
  emitted : List (List Nat)
deriving DecidableEq

/-- The component as mounted: nothing recording, no device, nothing emitted. -/
def init : RecorderState :=
  ⟨false, 0, false, false, MRState.noRec, [], false, false, 0, []⟩

/-- `mediaRecorderRef.current.stop()`: the recorder becomes inactive and its
`onstop` handler is queued to fire later (asynchronously). -/
def recorderStop (s : RecorderState) : RecorderState :=
  { s with recState := MRState.inactive, pendingOnstop := true }

/-- The `cleanup` function of the component: stop and drop the stream tracks
(if a stream is held), clear the elapsed-time interval, call
`mediaRecorder.stop()` if it is still recording, reset `isRecording`,
`recordingTime`, and empty `chunksRef`. -/
def cleanup (s : RecorderState) : RecorderState :=
  let s1 := if s.streamHeld then
      { s with streamHeld := false, releaseCount := s.releaseCount + 1 }
    else s
  let s2 := { s1 with intervalSet := false }
  let s3 := if s2.recState = MRState.recording then recorderStop s2 else s2
  { s3 with isRecording := false, recordingTime := 0, chunks := [] }

/-- The success path of `startRecording`: `getUserMedia` granted a stream, a
new `MediaRecorder` is created and started, `chunksRef` is reset, the
1-second interval is installed.  The `onstop` closure created here captures
the current render's `isRecording` value. -/
def startRecording (s : RecorderState) : RecorderState :=
  { s with streamHeld := true,
           recState := MRState.recording,
           chunks := [],
           capturedIsRecording := s.isRecording,
           isRecording := true,
           recordingTime := 0,
           intervalSet := true }

/-- `stopRecording`: calls `mediaRecorder.stop()` only if the recorder exists
and is in state `recording`; otherwise a no-op. -/
def stopRecording (s : RecorderState) : RecorderState :=
  if s.recState = MRState.recording then recorderStop s else s

/-- `cancelRecording`: `setIsRecording(false)` followed by `cleanup()`. -/
def cancelRecording (s : RecorderState) : RecorderState :=
  cleanup { s with isRecording := false }

/-- The `ondataavailable` handler: pushes the chunk onto `chunksRef` only
when its size is strictly positive. -/
def dataAvailable (s : RecorderState) (size : Nat) : RecorderState :=
  if 0 < size then { s with chunks := s.chunks ++ [size] } else s

/-- The queued `onstop` handler firing: if the captured `isRecording` is true
and `chunksRef` is non-empty, build the blob and call
`onRecordingComplete`; then `cleanup()`. -/
def fireOnstop (s : RecorderState) : RecorderState :=
  if s.pendingOnstop then
    let s1 := { s with pendingOnstop := false }
    let s2 := if s1.capturedIsRecording = true ∧ s1.chunks ≠ [] then
        { s1 with emitted := s1.emitted ++ [s1.chunks] }
      else s1
    cleanup s2
  else s

/-- The 1-Hz elapsed-time interval firing. -/
def timerTick (s : RecorderState) : RecorderState :=
  if s.intervalSet then { s with recordingTime := s.recordingTime + 1 } else s

/-- External events of one component instance.  `startOk` is a click on the
main button while idle with `getUserMedia` succeeding (the UI renders the
main button as start exactly when `isRecording` is false); `dataChunk n`
is `ondataavailable` with a blob of size `n`; `onstopFire` is the queued
`onstop` handler running. -/
inductive REvent
  | startOk
  | dataChunk (size : Nat)
  | tick
  | stopClick
  | cancelClick
  | onstopFire
deriving DecidableEq

/-- One event step of the component. -/
def step (s : RecorderState) (e : REvent) : RecorderState :=
  match e with
  | REvent.startOk => if s.isRecording then s else startRecording s
  | REvent.dataChunk n => if s.recState = MRState.noRec then s else dataAvailable s n
  | REvent.tick => timerTick s
  | REvent.stopClick => stopRecording s
  | REvent.cancelClick => cancelRecording s
  | REvent.onstopFire => fireOnstop s

/-- Run a trace of events from a state. -/
def run (s : RecorderState) (t : List REvent) : RecorderState :=
  t.foldl step s

theorem run_nil (s : RecorderState) : run s [] = s := rfl

theorem run_cons (s : RecorderState) (e : REvent) (t : List REvent) :
    run s (e :: t) = run (step s e) t := rfl

theorem run_append (s : RecorderState) (t u : List REvent) :
    run s (t ++ u) = run (run s t) u :=
  List.foldl_append _ _ _ _

/-- Invariant combinator: a property preserved by every step allowed by the
event condition `C` holds after any trace of such events. -/
theorem run_inv (P : RecorderState → Prop) (C : REvent → Prop)
    (hstep : ∀ s e, C e → P s → P (step s e)) :
    ∀ t : List REvent, (∀ e ∈ t, C e) → ∀ s, P s → P (run s t) := by
  intro t
  induction t with
  | nil => intro _ s h; exact h
  | cons e t ih =>
    intro hC s h
    rw [run_cons]
    exact ih (fun x hx => hC x (List.mem_cons_of_mem _ hx)) _
      (hstep s e (hC e (List.mem_cons_self _ _)) h)

theorem cleanup_captured (s : RecorderState) :
    (cleanup s).capturedIsRecording = s.capturedIsRecording := by
  simp only [cleanup, recorderStop]
  split <;> split <;> rfl

/-- The `onstop` closure's captured `isRecording` is false in every reachable
state: the closure is created by `startRecording`, which only runs from a
render whose `isRecording` is false. -/
theorem step_captured_false (s : RecorderState) (e : REvent)
    (h : s.capturedIsRecording = false) :
    (step s e).capturedIsRecording = false := by
  cases e with
  | startOk =>
    simp only [step, startRecording]
    split
    · exact h
    · next hrec => simpa using Bool.eq_false_iff.mpr (by simpa using hrec)
  | dataChunk n =>
    simp only [step, dataAvailable]
    split
    · exact h
    · split <;> exact h
  | tick =>
    simp only [step, timerTick]
    split <;> exact h
  | stopClick =>
    simp only [step, stopRecording, recorderStop]
    split <;> exact h
  | cancelClick =>
    simp only [step, cancelRecording]
    rw [cleanup_captured]
    exact h
  | onstopFire =>
    simp only [step, fireOnstop]
    split
    · rw [cleanup_captured]
      split <;> exact h
    · exact h

theorem cleanup_emitted (s : RecorderState) :
    (cleanup s).emitted = s.emitted := by
  simp only [cleanup, recorderStop]
  split <;> split <;> rfl

/-- A step from a state with stale-false captured flag emits nothing new. -/
theorem step_emitted (s : RecorderState) (e : REvent)
    (h : s.capturedIsRecording = false) :
    (step s e).emitted = s.emitted := by
  cases e with
  | startOk =>
    simp only [step, startRecording]
    split <;> rfl
  | dataChunk n =>
    simp only [step, dataAvailable]
    split
    · rfl
    · split <;> rfl
  | tick =>
    simp only [step, timerTick]
    split <;> rfl
  | stopClick =>
    simp only [step, stopRecording, recorderStop]
    split <;> rfl
  | onstopFire =>
    simp only [step, fireOnstop]
    split
    · rw [cleanup_emitted]
      split
      · next hcap => exact absurd hcap.1 (by simp [h])
      · rfl
    · rfl
  | cancelClick =>
    simp only [step, cancelRecording]
    rw [cleanup_emitted]

/-- Nothing is ever emitted from the initial state: the `onstop` handler's
guard reads a stale `isRecording` that is always false. -/
theorem run_emitted_nil (t : List REvent) : (run init t).emitted = [] := by
  have h : ∀ s, (s.capturedIsRecording = false ∧ s.emitted = []) →
      ∀ e, (step s e).capturedIsRecording = false ∧ (step s e).emitted = [] := by
    intro s hs e
    exact ⟨step_captured_false s e hs.1, (step_emitted s e hs.1).trans hs.2⟩
  have := run_inv (fun s => s.capturedIsRecording = false ∧ s.emitted = [])
    (fun _ => True) (fun s e _ hp => h s hp e) t (fun _ _ => trivial) init
    ⟨rfl, rfl⟩
  exact this.2

/-- Device-handle discipline of a state: either the stream is still held and
has never been released, or it has been released exactly once. -/
def DeviceInv (s : RecorderState) : Prop :=
  (s.streamHeld = true ∧ s.releaseCount = 0) ∨
  (s.streamHeld = false ∧ s.releaseCount = 1)

theorem cleanup_streamHeld (s : RecorderState) :
    (cleanup s).streamHeld = false := by
  simp only [cleanup, recorderStop]
  split
  · split <;> rfl
  · next h => split <;> simpa using h

theorem cleanup_releaseCount (s : RecorderState) :
    (s.streamHeld = true ∧ (cleanup s).releaseCount = s.releaseCount + 1) ∨
    (s.streamHeld = false ∧ (cleanup s).releaseCount = s.releaseCount) := by
  simp only [cleanup, recorderStop]
  split
  · next h => exact Or.inl ⟨by simpa using h, by split <;> rfl⟩
  · next h => exact Or.inr ⟨by simpa using h, by split <;> rfl⟩

/-- `DeviceInv` only looks at `streamHeld` and `releaseCount`. -/
theorem deviceInv_of_fields (s' s : RecorderState)
    (hh : s'.streamHeld = s.streamHeld)
    (hr : s'.releaseCount = s.releaseCount) (h : DeviceInv s) :
    DeviceInv s' := by
  rcases h with ⟨h1, h2⟩ | ⟨h1, h2⟩
  · exact Or.inl ⟨hh.trans h1, hr.trans h2⟩
  · exact Or.inr ⟨hh.trans h1, hr.trans h2⟩

theorem deviceInv_cleanup (s : RecorderState) (h : DeviceInv s) :
    DeviceInv (cleanup s) := by
  rcases cleanup_releaseCount s with ⟨hh, hr⟩ | ⟨hh, hr⟩
  · rcases h with ⟨h1, h2⟩ | ⟨h1, h2⟩
    · exact Or.inr ⟨cleanup_streamHeld s, by rw [hr, h2]⟩
    · exact absurd hh (by simp [h1])
  · rcases h with ⟨h1, h2⟩ | ⟨h1, h2⟩
    · exact absurd hh (by simp [h1])
    · exact Or.inr ⟨cleanup_streamHeld s, by rw [hr, h2]⟩

/-- Every event except a fresh successful start preserves the device-handle
discipline: only `cleanup` touches the stream, and it releases only when the
stream is still held. -/
theorem step_device (s : RecorderState) (e : REvent)
    (he : e ≠ REvent.startOk) (h : DeviceInv s) : DeviceInv (step s e) := by
  cases e with
  | startOk => exact absurd rfl he
  | dataChunk n =>
    simp only [step, dataAvailable]
    split
    · exact h
    · split
      · exact deviceInv_of_fields _ s rfl rfl h
      · exact h
  | tick =>
    simp only [step, timerTick]
    split
    · exact deviceInv_of_fields _ s rfl rfl h
    · exact h
  | stopClick =>
    simp only [step, stopRecording, recorderStop]
    split
    · exact deviceInv_of_fields _ s rfl rfl h
    · exact h
  | cancelClick =>
    simp only [step, cancelRecording]
    exact deviceInv_cleanup _ (deviceInv_of_fields _ s rfl rfl h)
  | onstopFire =>
    simp only [step, fireOnstop]
    split
    · apply deviceInv_cleanup
      split
      · exact deviceInv_of_fields _ s rfl rfl h
      · exact deviceInv_of_fields _ s rfl rfl h
    · exact h

/-- After `cancelRecording` the stream is released and the total number of
releases is one, given the device-handle discipline held before. -/
theorem cancel_device (s : RecorderState) (h : DeviceInv s) :
    (cancelRecording s).streamHeld = false ∧
    (cancelRecording s).releaseCount = 1 := by
  simp only [cancelRecording]
  refine ⟨cleanup_streamHeld _, ?_⟩
  rcases cleanup_releaseCount { s with isRecording := false } with
    ⟨hh, hr⟩ | ⟨hh, hr⟩
  · have hr' : (cleanup { s with isRecording := false }).releaseCount
        = s.releaseCount + 1 := hr
    rcases h with ⟨h1, h2⟩ | ⟨h1, h2⟩
    · rw [hr', h2]
    · have hh' : s.streamHeld = true := hh
      rw [h1] at hh'
      exact absurd hh' (by simp)
  · have hr' : (cleanup { s with isRecording := false }).releaseCount
        = s.releaseCount := hr
    rcases h with ⟨h1, h2⟩ | ⟨h1, h2⟩
    · have hh' : s.streamHeld = false := hh
      rw [h1] at hh'
      exact absurd hh' (by simp)
    · rw [hr', h2]

/-- `cleanup` on a state whose stream is already released changes neither
field of the release discipline. -/
theorem cleanup_released (s : RecorderState)
    (h : s.streamHeld = false ∧ s.releaseCount = 1) :
    (cleanup s).streamHeld = false ∧ (cleanup s).releaseCount = 1 := by
  refine ⟨cleanup_streamHeld _, ?_⟩
  rcases cleanup_releaseCount s with ⟨hh, hr⟩ | ⟨hh, hr⟩
  · exact absurd hh (by simp [h.1])
  · rw [hr]
    exact h.2

/-- A non-start step from a state with a released stream neither reacquires
the stream nor releases again. -/
theorem step_released (s : RecorderState) (e : REvent)
    (he : e ≠ REvent.startOk)
    (h : s.streamHeld = false ∧ s.releaseCount = 1) :
    (step s e).streamHeld = false ∧ (step s e).releaseCount = 1 := by
  cases e with
  | startOk => exact absurd rfl he
  | dataChunk n =>
    simp only [step, dataAvailable]
    split
    · exact h
    · split
      · exact ⟨h.1, h.2⟩
      · exact h
  | tick =>
    simp only [step, timerTick]
    split
    · exact ⟨h.1, h.2⟩
    · exact h
  | stopClick =>
    simp only [step, stopRecording, recorderStop]
    split
    · exact ⟨h.1, h.2⟩
    · exact h
  | cancelClick =>
    simp only [step, cancelRecording]
    exact cleanup_released _ ⟨h.1, h.2⟩
  | onstopFire =>
    simp only [step, fireOnstop]
    split
    · apply cleanup_released
      split
      · exact ⟨h.1, h.2⟩
      · exact ⟨h.1, h.2⟩
    · exact h

/-- Chunk sizes buffered in `chunksRef` are always strictly positive:
`ondataavailable` drops zero-size blobs. -/
theorem step_chunks_pos (s : RecorderState) (e : REvent)
    (h : ∀ c ∈ s.chunks, 0 < c) : ∀ c ∈ (step s e).chunks, 0 < c := by
  have hcl : ∀ s' : RecorderState, ∀ c ∈ (cleanup s').chunks, 0 < c := by
    intro s' c hc
    simp [cleanup] at hc
  cases e with
  | startOk =>
    simp only [step, startRecording]
    split
    · exact h
    · simp
  | dataChunk n =>
    simp only [step, dataAvailable]
    split
    · exact h
    · split
      · next hn =>
        intro c hc
        rcases List.mem_append.mp hc with hc | hc
        · exact h c hc
        · simpa [List.mem_singleton.mp hc] using hn
      · exact h
  | tick =>
    simp only [step, timerTick]
    split <;> exact h
  | stopClick =>
    simp only [step, stopRecording, recorderStop]
    split <;> exact h
  | cancelClick =>
    simp only [step, cancelRecording]
    exact hcl _
  | onstopFire =>
    simp only [step, fireOnstop]
    split
    · exact hcl _
    · exact h

theorem run_chunks_pos (t : List REvent) :
    ∀ c ∈ (run init t).chunks, 0 < c :=
  run_inv (fun s => ∀ c ∈ s.chunks, 0 < c) (fun _ => True)
    (fun s e _ h => step_chunks_pos s e h) t (fun _ _ => trivial) init
    (by intro c hc; simp [init] at hc)

/-- A step by a tick or a zero-size chunk leaves an empty buffer empty. -/
theorem step_zero_chunk (s : RecorderState) (e : REvent)
    (he : e = REvent.tick ∨ e = REvent.dataChunk 0)
    (h : s.chunks = []) : (step s e).chunks = [] := by
  rcases he with he | he <;> subst he
  · simp only [step, timerTick]
    split <;> exact h
  · simp only [step, dataAvailable]
    split
    · exact h
    · simp [h]

/-- C1: the spec requires a `start(); stop()` run with a delivered chunk to
emit exactly one artifact, but the code emits none: the `onstop` handler
tests the stale captured `isRecording` (always false), so even after a
start, a delivered chunk of size 5, a stop click and the `onstop` callback,
nothing is ever passed to `onRecordingComplete`. -/
theorem stop_emits_nothing_bug :
    (run init [REvent.startOk, REvent.dataChunk 5,
      REvent.stopClick, REvent.onstopFire]).emitted = [] ∧
    (run init [REvent.startOk, REvent.dataChunk 5,
      REvent.stopClick, REvent.onstopFire]).chunks = [] := by
  constructor
  · exact run_emitted_nil _
  · decide

/-- C2: in every run that starts a recording and later cancels it (with any
chunk deliveries, ticks, stop clicks and onstop callbacks in between, and
any further non-start events after the cancel), no artifact is ever emitted
and the media-stream tracks are released exactly once. -/
theorem cancel_no_artifact_release_once (mid post : List REvent)
    (hmid : ∀ e ∈ mid, e ≠ REvent.startOk)
    (hpost : ∀ e ∈ post, e ≠ REvent.startOk) :
    (run init (REvent.startOk :: mid ++ REvent.cancelClick :: post)).emitted
      = [] ∧
    (run init (REvent.startOk :: mid ++ REvent.cancelClick :: post)).releaseCount
      = 1 ∧
    (run init (REvent.startOk :: mid ++ REvent.cancelClick :: post)).streamHeld
      = false := by
  refine ⟨run_emitted_nil _, ?_⟩
  have hdecomp :
      run init (REvent.startOk :: mid ++ REvent.cancelClick :: post) =
      run (step (run (step init REvent.startOk) mid) REvent.cancelClick) post := by
    rw [run_append, run_cons, run_cons]
  have h1 : DeviceInv (step init REvent.startOk) := by
    left
    constructor <;> rfl
  have h2 : DeviceInv (run (step init REvent.startOk) mid) :=
    run_inv DeviceInv (fun e => e ≠ REvent.startOk) step_device mid hmid _ h1
  have h3 := cancel_device _ h2
  have h4 := run_inv
    (fun s => s.streamHeld = false ∧ s.releaseCount = 1)
    (fun e => e ≠ REvent.startOk)
    (fun s e he h => step_released s e he h) post hpost _ ⟨h3.1, h3.2⟩
  rw [hdecomp]
  exact ⟨h4.2, h4.1⟩

/-- C10: if after a successful start only ticks and zero-size chunks are
delivered, the chunk buffer stays empty, and the subsequent stop and onstop
emit no artifact; moreover in any run whatsoever a zero-size chunk is never
buffered (every buffered chunk size is strictly positive). -/
theorem no_artifact_without_nonempty_chunk (mid : List REvent)
    (hmid : ∀ e ∈ mid, e = REvent.tick ∨ e = REvent.dataChunk 0) :
    (run init (REvent.startOk :: mid)).chunks = [] ∧
    (run init (REvent.startOk :: mid ++
      [REvent.stopClick, REvent.onstopFire])).emitted = [] ∧
    (∀ t : List REvent, ∀ c ∈ (run init t).chunks, 0 < c) := by
  refine ⟨?_, run_emitted_nil _, fun t => run_chunks_pos t⟩
  rw [run_cons]
  exact run_inv (fun s => s.chunks = [])
    (fun e => e = REvent.tick ∨ e = REvent.dataChunk 0)
    step_zero_chunk mid hmid _ rfl

/-- Concrete witness for the C2 theorem: start, a 3-byte chunk, a tick, then
cancel, then the queued onstop fires. -/
theorem cancel_no_artifact_release_once_witness :
    (run init (REvent.startOk :: [REvent.dataChunk 3, REvent.tick] ++
      REvent.cancelClick :: [REvent.onstopFire])).emitted = [] ∧
    (run init (REvent.startOk :: [REvent.dataChunk 3, REvent.tick] ++
      REvent.cancelClick :: [REvent.onstopFire])).releaseCount = 1 ∧
    (run init (REvent.startOk :: [REvent.dataChunk 3, REvent.tick] ++
      REvent.cancelClick :: [REvent.onstopFire])).streamHeld = false :=
  cancel_no_artifact_release_once [REvent.dataChunk 3, REvent.tick]
    [REvent.onstopFire] (by decide) (by decide)

/-- Concrete witness for the C10 theorem: start, a zero-size chunk and a
tick, then stop. -/
theorem no_artifact_without_nonempty_chunk_witness :
    (run init (REvent.startOk :: [REvent.dataChunk 0, REvent.tick])).chunks
      = [] ∧
    (run init (REvent.startOk :: [REvent.dataChunk 0, REvent.tick] ++
      [REvent.stopClick, REvent.onstopFire])).emitted = [] ∧
    (∀ t : List REvent, ∀ c ∈ (run init t).chunks, 0 < c) :=
  no_artifact_without_nonempty_chunk [REvent.dataChunk 0, REvent.tick]
    (by decide)

end VoiceRecorder

/-!
Part 2 embeds the entry-processing pipeline of
`src/pages/JournalEntry.tsx`.  Each external capability call (storage
upload, transcription, chat completion, image generation, database
insert/update) is a suspension point whose result is supplied by an
environment record; the embedding returns the ordered list of calls the
code issues together with the messages whose inserts succeeded and the
terminal outcome of the invocation.  The stored OpenAI key is a string,
missing iff empty (the JavaScript falsiness of `openaiKey`).
-/

namespace JournalPipeline

/-- `role` column of a `journal_messages` row. -/
inductive Role
  | user
  | assistant
deriving DecidableEq

/-- A `journal_messages` row as the pipeline writes it (`journal_id` and
timestamps are managed by the store and omitted). -/
structure MessageRow where
  role : Role
  content : String
  audio_url : Option String
  transcript : Option String
deriving DecidableEq

/-- A chat-completion request body together with its bearer key, as built
by `generateAIResponse`, `generateSummary` and the description step of
`generateThumbnail`. -/
structure ChatRequest where
  apiKey : String
  model : String
  system : String
  userContent : String
  maxTokens : Nat
deriving DecidableEq

/-- The `journals` table update issued by `saveJournal`
(`updated_at` omitted as a wall-clock value). -/
structure JournalUpdate where
  title : String
  status : String
  thumbnail_url : String
  summary : String
deriving DecidableEq

/-- One external call made by the pipeline, in program order. -/
inductive Call
  | storageUpload
  | transcribeRequest (apiKey : String)
  | chat (r : ChatRequest)
  | imageGen (apiKey : String) (prompt : String)
  | insertMsg (m : MessageRow)
  | updateJournal (u : JournalUpdate)
deriving DecidableEq

/-- Which `throw` site ended a `handleRecordingComplete` invocation. -/
inductive Stage
  | upload
  | transcription
  | userInsert
  | aiResponse
deriving DecidableEq

/-- Terminal outcome of one `handleRecordingComplete` invocation. -/
inductive Outcome
  | credentialMissing
  | success
  | failure (stage : Stage)
deriving DecidableEq

/-- System prompt of `generateAIResponse`. -/
def replySystemPrompt : String :=
  "You are a compassionate AI companion for voice journaling. Respond thoughtfully to the user's thoughts and feelings. Ask follow-up questions to help them explore their emotions deeper. Keep responses conversational and supportive, around 2-3 sentences."

/-- System prompt of `generateSummary`. -/
def summarySystemPrompt : String :=
  "You are a skilled summarizer. Create a concise 2-3 sentence summary of the journal entry that captures the main topics, emotions, and insights discussed."

/-- System prompt of the description step of `generateThumbnail`. -/
def descriptionSystemPrompt : String :=
  "You are an expert at converting journal entries into visual descriptions. Create a brief, vivid description for an image that captures the emotional essence and main themes of this journal entry. The description should be suitable for DALL-E image generation."

/-- The chat request `generateAIResponse` sends: model `gpt-4o-mini`, the
fixed companion system prompt, and the transcript as the only user
content. -/
def mkReplyRequest (apiKey transcript : String) : ChatRequest :=
  ⟨apiKey, "gpt-4o-mini", replySystemPrompt, transcript, 200⟩

/-- The chat request `generateSummary` sends over the joined user-message
contents. -/
def mkSummaryRequest (apiKey userContent : String) : ChatRequest :=
  ⟨apiKey, "gpt-4", summarySystemPrompt, userContent, 150⟩

/-- The description chat request of `generateThumbnail`. -/
def mkDescriptionRequest (apiKey userContent : String) : ChatRequest :=
  ⟨apiKey, "gpt-4", descriptionSystemPrompt, userContent, 100⟩

/-- The DALL-E prompt `generateThumbnail` builds from the generated image
description. -/
def thumbnailPrompt (descr : String) : String :=
  "Create a minimalist, aesthetic illustration that represents: " ++ descr ++
    ". Style: modern, artistic, subtle colors, abstract yet emotionally evocative, no text"

/-- Results of the external collaborators during one
`handleRecordingComplete` invocation: `none`/`false` means the call
fails (non-ok response or store error); `publicUrl` is the retrievable
reference returned for the uploaded artifact. -/
structure RecEnv where
  uploadOk : Bool
  publicUrl : String
  transcribeRes : Option String
  userInsertOk : Bool
  aiRes : Option String
  aiInsertOk : Bool

/-- Observable result of one `handleRecordingComplete` invocation:
the calls issued in order, the message rows whose insert succeeded (in
insertion order), the final local `messages` state, and the outcome. -/
structure RecResult where
  calls : List Call
  persisted : List MessageRow
  localMessages : List MessageRow
  outcome : Outcome

/-- The user message row inserted in step 3: content is the transcript,
the audio reference is attached, and the `transcript` column repeats the
transcript. -/
def mkUserRow (publicUrl transcript : String) : MessageRow :=
  ⟨Role.user, transcript, some publicUrl, some transcript⟩

/-- The assistant message row inserted in step 5. -/
def mkAssistantRow (reply : String) : MessageRow :=
  ⟨Role.assistant, reply, none, none⟩

/-- `handleRecordingComplete(audioBlob)`: guard on the configured key,
then upload, transcribe, insert the user message, generate the reply,
insert the assistant message.  A failed upload, transcription or user
insert throws to the catch block; a failed assistant insert is only
skipped (`if (!aiMessageError)`), not thrown. -/
def handleRecordingComplete (key : String) (prior : List MessageRow)
    (env : RecEnv) : RecResult :=
  if key = "" then ⟨[], [], prior, Outcome.credentialMissing⟩
  else
    let c1 := [Call.storageUpload]
    if env.uploadOk = false then ⟨c1, [], prior, Outcome.failure Stage.upload⟩
    else
      let c2 := c1 ++ [Call.transcribeRequest key]
      match env.transcribeRes with
      | none => ⟨c2, [], prior, Outcome.failure Stage.transcription⟩
      | some transcript =>
        let userRow := mkUserRow env.publicUrl transcript
        let c3 := c2 ++ [Call.insertMsg userRow]
        if env.userInsertOk = false then
          ⟨c3, [], prior, Outcome.failure Stage.userInsert⟩
        else
          let c4 := c3 ++ [Call.chat (mkReplyRequest key transcript)]
          match env.aiRes with
          | none =>
            ⟨c4, [userRow], prior ++ [userRow], Outcome.failure Stage.aiResponse⟩
          | some reply =>
            let aiRow := mkAssistantRow reply
            let c5 := c4 ++ [Call.insertMsg aiRow]
            if env.aiInsertOk then
              ⟨c5, [userRow, aiRow], prior ++ [userRow, aiRow], Outcome.success⟩
            else
              ⟨c5, [userRow], prior ++ [userRow], Outcome.success⟩

/-- Results of the external collaborators during one `saveJournal`
invocation; `none` means the corresponding request returned non-ok. -/
structure SaveEnv where
  summaryRes : Option String
  descriptionRes : Option String
  imageRes : Option String
  updateOk : Bool

/-- Observable result of one `saveJournal` invocation: calls issued in
order, the `journals` update row sent, whether the generation catch
block reported a failure toast, and whether the update itself
succeeded. -/
structure SaveResult where
  calls : List Call
  update : JournalUpdate
  genFailureReported : Bool
  saveOk : Bool

/-- The concatenated user-turn content both `generateSummary` and
`generateThumbnail` compute: user-role message contents joined by
newlines. -/
def userContentOf (msgs : List MessageRow) : String :=
  String.intercalate "\n"
    ((msgs.filter (fun m => m.role == Role.user)).map (fun m => m.content))

/-- `generateSummary(messages)`: one chat request; `none` on non-ok. -/
def generateSummary (key : String) (msgs : List MessageRow) (env : SaveEnv) :
    List Call × Option String :=
  ([Call.chat (mkSummaryRequest key (userContentOf msgs))], env.summaryRes)

/-- `generateThumbnail(messages)`: the description chat request, then on
success the DALL-E image request built from the returned description. -/
def generateThumbnail (key : String) (msgs : List MessageRow) (env : SaveEnv) :
    List Call × Option String :=
  let descCall := Call.chat (mkDescriptionRequest key (userContentOf msgs))
  match env.descriptionRes with
  | none => ([descCall], none)
  | some d =>
    ([descCall, Call.imageGen key (thumbnailPrompt d)], env.imageRes)

/-- Result of the generation `try` block of `saveJournal`: calls issued,
the final `summary` and `thumbnailUrl` variables, and whether the catch
block ran. -/
structure GenOut where
  calls : List Call
  summary : String
  thumb : String
  failed : Bool

/-- The `try { ... } catch { toast }` block of `saveJournal`: generate a
summary if the `summary` variable is falsy, then a thumbnail if the
`thumbnailUrl` variable is falsy; a thrown failure skips the rest of the
block and reaches the catch, keeping any values already assigned. -/
def generatePhase (key jSummary jThumb : String) (msgs : List MessageRow)
    (env : SaveEnv) : GenOut :=
  if jSummary = "" then
    match generateSummary key msgs env with
    | (cs, none) => ⟨cs, jSummary, jThumb, true⟩
    | (cs, some s) =>
      if jThumb = "" then
        match generateThumbnail key msgs env with
        | (ct, none) => ⟨cs ++ ct, s, jThumb, true⟩
        | (ct, some u) => ⟨cs ++ ct, s, u, false⟩
      else ⟨cs, s, jThumb, false⟩
  else
    if jThumb = "" then
      match generateThumbnail key msgs env with
      | (ct, none) => ⟨ct, jSummary, jThumb, true⟩
      | (ct, some u) => ⟨ct, jSummary, u, false⟩
    else ⟨[], jSummary, jThumb, false⟩

/-- `saveJournal()`: run the generation block only when the entry has at
least one message and a key is configured, then unconditionally update
the journal row with the title, status `completed`, and whatever
thumbnail and summary are available at that point. -/
def saveJournal (key title jSummary jThumb : String)
    (msgs : List MessageRow) (env : SaveEnv) : SaveResult :=
  let g := if 0 < msgs.length ∧ key ≠ "" then
      generatePhase key jSummary jThumb msgs env
    else ⟨[], jSummary, jThumb, false⟩
  let upd : JournalUpdate := ⟨title, "completed", g.thumb, g.summary⟩
  ⟨g.calls ++ [Call.updateJournal upd], upd, g.failed, env.updateOk⟩

/-- C3: `handleRecordingComplete` with no configured key returns through
the credential-missing branch and performs zero network or storage
calls: no upload, no transcription request, no insert. -/
theorem missing_credential_no_calls (prior : List MessageRow) (env : RecEnv) :
    (handleRecordingComplete "" prior env).calls = [] ∧
    (handleRecordingComplete "" prior env).persisted = [] ∧
    (handleRecordingComplete "" prior env).outcome
      = Outcome.credentialMissing := by
  simp [handleRecordingComplete]

/-- C4: with a configured key, if the transcription request fails then no
journal message is persisted in that invocation, the outcome is the
transcription-stage error (surfaced by the catch block's toast), and
only the upload and the transcription request were issued — the stored
artifact remains, nothing deletes it. -/
theorem transcription_failure_zero_messages (key : String)
    (prior : List MessageRow) (env : RecEnv) (hk : key ≠ "")
    (hu : env.uploadOk = true) (ht : env.transcribeRes = none) :
    (handleRecordingComplete key prior env).persisted = [] ∧
    (handleRecordingComplete key prior env).outcome
      = Outcome.failure Stage.transcription ∧
    (handleRecordingComplete key prior env).calls
      = [Call.storageUpload, Call.transcribeRequest key] := by
  simp [handleRecordingComplete, hk, hu, ht]

/-- Witness for the C4 theorem at a concrete key and environment. -/
theorem transcription_failure_zero_messages_witness :
    (handleRecordingComplete "sk-key" []
      ⟨true, "url", none, true, none, true⟩).persisted = [] ∧
    (handleRecordingComplete "sk-key" []
      ⟨true, "url", none, true, none, true⟩).outcome
        = Outcome.failure Stage.transcription ∧
    (handleRecordingComplete "sk-key" []
      ⟨true, "url", none, true, none, true⟩).calls
        = [Call.storageUpload, Call.transcribeRequest "sk-key"] :=
  transcription_failure_zero_messages "sk-key" []
    ⟨true, "url", none, true, none, true⟩ (by decide) rfl rfl

/-- The successfully persisted rows of one invocation always form one of
three shapes: nothing, one user row, or one user row followed by one
assistant row. -/
theorem persisted_shape (key : String) (prior : List MessageRow)
    (env : RecEnv) :
    (handleRecordingComplete key prior env).persisted = [] ∨
    (∃ u, (handleRecordingComplete key prior env).persisted = [u] ∧
      u.role = Role.user) ∨
    (∃ u a, (handleRecordingComplete key prior env).persisted = [u, a] ∧
      u.role = Role.user ∧ a.role = Role.assistant) := by
  simp only [handleRecordingComplete]
  split
  · exact Or.inl rfl
  · split
    · exact Or.inl rfl
    · split
      · exact Or.inl rfl
      · split
        · exact Or.inl rfl
        · split
          · exact Or.inr (Or.inl ⟨_, rfl, rfl⟩)
          · split
            · exact Or.inr (Or.inr ⟨_, _, rfl, rfl, rfl⟩)
            · exact Or.inr (Or.inl ⟨_, rfl, rfl⟩)

/-- C5: an assistant row is persisted only at a position strictly after a
persisted user row of the same invocation; and a reply-generation
failure after the user insert leaves exactly the user row persisted. -/
theorem assistant_persisted_after_user (key : String)
    (prior : List MessageRow) (env : RecEnv) :
    (∀ i, ∀ hi : i < (handleRecordingComplete key prior env).persisted.length,
      ((handleRecordingComplete key prior env).persisted.get ⟨i, hi⟩).role
          = Role.assistant →
      ∃ j, ∃ hj : j < (handleRecordingComplete key prior env).persisted.length,
        j < i ∧
        ((handleRecordingComplete key prior env).persisted.get ⟨j, hj⟩).role
          = Role.user) ∧
    (∀ t, key ≠ "" → env.uploadOk = true → env.transcribeRes = some t →
      env.userInsertOk = true → env.aiRes = none →
      (handleRecordingComplete key prior env).persisted
        = [mkUserRow env.publicUrl t]) := by
  constructor
  · rcases persisted_shape key prior env with h | ⟨u, h, hu1⟩ | ⟨u, a, h, hu1, ha1⟩
    · rw [h]
      intro i hi
      simp at hi
    · rw [h]
      intro i hi hrole
      have hi0 : i = 0 := by simpa using hi
      subst hi0
      simp [hu1] at hrole
    · rw [h]
      intro i hi hrole
      have hi2 : i < 2 := by simpa using hi
      match i, hi, hrole with
      | 0, hi, hrole => simp [hu1] at hrole
      | 1, hi, hrole =>
        exact ⟨0, by simp, by omega, by simpa using hu1⟩
  · intro t hk hup ht huok hai
    simp [handleRecordingComplete, hk, hup, ht, huok, hai]

/-- Witness for the C5 theorem: reply generation fails after a
successful user insert, leaving exactly the user row. -/
theorem assistant_persisted_after_user_witness :
    (handleRecordingComplete "k" []
      ⟨true, "u", some "hello", true, none, true⟩).persisted
        = [mkUserRow "u" "hello"] :=
  (assistant_persisted_after_user "k" []
    ⟨true, "u", some "hello", true, none, true⟩).2 "hello"
    (by decide) rfl rfl rfl rfl

/-- C9: every user-role message row the pipeline writes has its
`transcript` column equal to its `content` column (both are the
transcription result). -/
theorem user_row_transcript_eq_content (key : String)
    (prior : List MessageRow) (env : RecEnv) :
    ∀ m, Call.insertMsg m ∈ (handleRecordingComplete key prior env).calls →
      m.role = Role.user → m.transcript = some m.content := by
  intro m hm hrole
  by_cases hk : key = "" <;>
    cases hu : env.uploadOk <;>
    rcases ht : env.transcribeRes with _ | t <;>
    cases hui : env.userInsertOk <;>
    rcases ha : env.aiRes with _ | rep <;>
    cases hai : env.aiInsertOk <;>
    simp [handleRecordingComplete, hk, hu, ht, hui, ha, hai] at hm <;>
    first
      | (rcases hm with rfl | rfl
         · simp [mkUserRow]
         · simp [mkAssistantRow] at hrole)
      | (subst hm; simp [mkUserRow])

/-- Witness for the C9 theorem at a concrete run. -/
theorem user_row_transcript_eq_content_witness :
    (mkUserRow "u" "hello").transcript
      = some (mkUserRow "u" "hello").content :=
  user_row_transcript_eq_content "k" []
    ⟨true, "u", some "hello", true, some "ok", true⟩
    (mkUserRow "u" "hello") (by decide) rfl

/-- C8: the calls issued by `handleRecordingComplete` — in particular the
reply-generation request — do not depend on the prior message history,
and every chat request it issues is exactly the reply request built from
the latest transcript. -/
theorem reply_request_ignores_history (key : String) (env : RecEnv)
    (prior1 prior2 : List MessageRow) :
    (handleRecordingComplete key prior1 env).calls
      = (handleRecordingComplete key prior2 env).calls ∧
    (∀ r, Call.chat r ∈ (handleRecordingComplete key prior1 env).calls →
      ∃ t, env.transcribeRes = some t ∧ r = mkReplyRequest key t) := by
  constructor
  · by_cases hk : key = "" <;>
      cases hu : env.uploadOk <;>
      rcases ht : env.transcribeRes with _ | t <;>
      cases hui : env.userInsertOk <;>
      rcases ha : env.aiRes with _ | rep <;>
      cases hai : env.aiInsertOk <;>
      simp [handleRecordingComplete, hk, hu, ht, hui, ha, hai]
  · intro r hr
    by_cases hk : key = "" <;>
      cases hu : env.uploadOk <;>
      rcases ht : env.transcribeRes with _ | t <;>
      cases hui : env.userInsertOk <;>
      rcases ha : env.aiRes with _ | rep <;>
      cases hai : env.aiInsertOk <;>
      simp [handleRecordingComplete, hk, hu, ht, hui, ha, hai] at hr <;>
      exact ⟨t, rfl, hr⟩

set_option maxRecDepth 8192 in
/-- Witness for the C8 theorem: two runs with different prior histories
and the same transcript issue the same calls, and the single chat
request carries that transcript. -/
theorem reply_request_ignores_history_witness :
    (handleRecordingComplete "k" []
      ⟨true, "u", some "hello", true, some "ok", true⟩).calls
      = (handleRecordingComplete "k" [mkAssistantRow "old"]
        ⟨true, "u", some "hello", true, some "ok", true⟩).calls ∧
    (∃ t, (⟨true, "u", some "hello", true, some "ok", true⟩ : RecEnv).transcribeRes
        = some t ∧ mkReplyRequest "k" "hello" = mkReplyRequest "k" t) :=
  ⟨(reply_request_ignores_history "k"
      ⟨true, "u", some "hello", true, some "ok", true⟩ []
      [mkAssistantRow "old"]).1,
   (reply_request_ignores_history "k"
      ⟨true, "u", some "hello", true, some "ok", true⟩ []
      [mkAssistantRow "old"]).2 (mkReplyRequest "k" "hello") (by decide)⟩

/-- Is this call the chat request of `generateSummary`?  (Identified by
its system prompt, which no other request uses.) -/
def isSummaryCall (c : Call) : Bool :=
  match c with
  | Call.chat r => r.system == summarySystemPrompt
  | _ => false

/-- Is this call part of `generateThumbnail` (the description chat
request or the image-generation request)? -/
def isIllustrationCall (c : Call) : Bool :=
  match c with
  | Call.chat r => r.system == descriptionSystemPrompt
  | Call.imageGen _ _ => true
  | _ => false

/-- C7: `saveJournal` on an entry with zero messages makes no generation
call at all — the only call is the journal update — and that update still
carries status `completed` with the pre-existing summary and thumbnail. -/
theorem saveJournal_empty_entry (key title jSummary jThumb : String)
    (env : SaveEnv) :
    (saveJournal key title jSummary jThumb [] env).calls
      = [Call.updateJournal (saveJournal key title jSummary jThumb [] env).update] ∧
    (saveJournal key title jSummary jThumb [] env).update
      = ⟨title, "completed", jThumb, jSummary⟩ := by
  simp [saveJournal]

/-- C6: with at least one message and a configured key, when no summary
exists the summary request is the first call issued (so summary
generation is attempted before illustration generation); a summary
failure reaches the catch, is reported, and skips the illustration; an
illustration failure is likewise reported; and in every case the run
ends with the journal update carrying status `completed` and whatever
summary and thumbnail are available. -/
theorem saveJournal_summary_first_best_effort (key title jSummary jThumb : String)
    (msgs : List MessageRow) (env : SaveEnv)
    (hm : msgs ≠ []) (hk : key ≠ "") :
    (jSummary = "" →
      (saveJournal key title jSummary jThumb msgs env).calls.head?
        = some (Call.chat (mkSummaryRequest key (userContentOf msgs)))) ∧
    (jSummary = "" → env.summaryRes = none →
      (saveJournal key title jSummary jThumb msgs env).calls
        = [Call.chat (mkSummaryRequest key (userContentOf msgs)),
           Call.updateJournal (saveJournal key title jSummary jThumb msgs env).update] ∧
      (saveJournal key title jSummary jThumb msgs env).genFailureReported = true) ∧
    (jThumb = "" → (jSummary ≠ "" ∨ env.summaryRes ≠ none) →
      (env.descriptionRes = none ∨ env.imageRes = none) →
      (saveJournal key title jSummary jThumb msgs env).genFailureReported = true) ∧
    (saveJournal key title jSummary jThumb msgs env).update.status = "completed" ∧
    (saveJournal key title jSummary jThumb msgs env).calls.getLast?
      = some (Call.updateJournal
          (saveJournal key title jSummary jThumb msgs env).update) := by
  have hcond : 0 < msgs.length ∧ key ≠ "" := ⟨List.length_pos.mpr hm, hk⟩
  refine ⟨?_, ?_, ?_, ?_, ?_⟩
  · intro hjs
    subst hjs
    rcases hsum : env.summaryRes with _ | s
    · simp [saveJournal, generatePhase, generateSummary, hcond, hsum]
    · rcases hdesc : env.descriptionRes with _ | d <;>
        rcases himg : env.imageRes with _ | u <;>
        by_cases hjt : jThumb = "" <;>
        simp [saveJournal, generatePhase, generateSummary, generateThumbnail,
          hcond, hsum, hdesc, himg, hjt]
  · intro hjs hsum
    subst hjs
    simp [saveJournal, generatePhase, generateSummary, hcond, hsum]
  · intro hjt hattempt hfail
    subst hjt
    rcases hattempt with hjs | hsum
    · have hjs' : ¬ jSummary = "" := hjs
      rcases hdesc : env.descriptionRes with _ | d
      · simp [saveJournal, generatePhase, generateThumbnail, hcond, hjs', hdesc]
      · rcases hfail with hfail | hfail
        · rw [hdesc] at hfail
          cases hfail
        · simp [saveJournal, generatePhase, generateThumbnail, hcond, hjs',
            hdesc, hfail]
    · rcases hs : env.summaryRes with _ | s
      · exact absurd hs hsum
      · by_cases hjs : jSummary = ""
        · subst hjs
          rcases hdesc : env.descriptionRes with _ | d
          · simp [saveJournal, generatePhase, generateSummary,
              generateThumbnail, hcond, hs, hdesc]
          · rcases hfail with hfail | hfail
            · rw [hdesc] at hfail
              cases hfail
            · simp [saveJournal, generatePhase, generateSummary,
                generateThumbnail, hcond, hs, hdesc, hfail]
        · rcases hdesc : env.descriptionRes with _ | d
          · simp [saveJournal, generatePhase, generateThumbnail, hcond, hjs,
              hdesc]
          · rcases hfail with hfail | hfail
            · rw [hdesc] at hfail
              cases hfail
            · simp [saveJournal, generatePhase, generateThumbnail, hcond, hjs,
                hdesc, hfail]
  · rfl
  · simp [saveJournal]

/-- Witness for the C6 theorem: one user message, empty summary and
thumbnail, summary generation fails; the failure is reported and the
update still goes out with status `completed`. -/
theorem saveJournal_summary_first_best_effort_witness :
    (saveJournal "k" "title" "" "" [mkUserRow "u" "hello"]
      ⟨none, none, none, true⟩).genFailureReported = true ∧
    (saveJournal "k" "title" "" "" [mkUserRow "u" "hello"]
      ⟨none, none, none, true⟩).update.status = "completed" ∧
    (saveJournal "k" "title" "" "" [mkUserRow "u" "hello"]
      ⟨none, none, none, true⟩).calls.head?
        = some (Call.chat (mkSummaryRequest "k"
            (userContentOf [mkUserRow "u" "hello"]))) := by
  have h := saveJournal_summary_first_best_effort "k" "title" "" ""
    [mkUserRow "u" "hello"] ⟨none, none, none, true⟩ (by decide) (by decide)
  exact ⟨(h.2.1 rfl rfl).2, h.2.2.2.1, h.1 rfl⟩

end JournalPipeline
